import Mathlib

/-!
Verification of the Egy360 accounts app (accounts/models.py, accounts/serializers.py,
accounts/views.py) against its natural-language specification.

The embedding below translates the account data model and the UserViewSet request
handlers into executable Lean definitions.  Persistence (the Django ORM) is modelled
as a list of account records; each handler is a function from the store and the
request to a response and the resulting store.  The Django password hasher and the
JWT token issuer are external collaborators: the hasher is modelled as a
deterministic collision-free encoding (check_password compares the stored hash with
the hash of the candidate, exactly the contract the views rely on), and tokens are
modelled as opaque strings.  Auto-managed audit timestamps (created_at, updated_at,
last_login_at) carry no logic in any handler and are left out of the record.
-/

/-- JSON-ish values appearing in response bodies. -/
inductive Val where
  | s : String → Val
  | n : Nat → Val
  | b : Bool → Val
  | null : Val
  deriving DecidableEq

/-- The CustomUser model of accounts/models.py (plus the AbstractUser fields the
views use: username, email, password hash, first and last name, is_staff,
is_active).  Field defaults mirror the model declarations: user_type defaults to
"tourist", the four verification booleans default to false, language_preference
to "en", receive_notifications to true, receive_sms to false. -/
structure Account where
  id : Nat
  username : String
  email : String := ""
  passwordHash : String := ""
  first_name : String := ""
  last_name : String := ""
  user_type : String := "tourist"
  phone_number : Option String := none
  gender : Option String := none
  date_of_birth : Option String := none
  nationality : Option String := none
  address : Option String := none
  city : Option String := none
  state : Option String := none
  postal_code : Option String := none
  country : Option String := none
  profile_picture : Option String := none
  bio : Option String := none
  website : Option String := none
  business_name : Option String := none
  business_license : Option String := none
  is_verified : Bool := false
  is_phone_verified : Bool := false
  is_identity_verified : Bool := false
  is_licensed : Bool := false
  language_preference : String := "en"
  receive_notifications : Bool := true
  receive_sms : Bool := false
  is_staff : Bool := false
  is_active : Bool := true
  deriving DecidableEq

/-- Accessor for the biography field. -/
def bioOf (u : Account) : Option String :=
  Account.bio u

/-- AbstractUser.get_full_name: first and last name joined and stripped. -/
def get_full_name (u : Account) : String :=
  (u.first_name ++ " " ++ u.last_name).trim

/-- The serializers' full_name method: get_full_name or fallback to username. -/
def full_name_of (u : Account) : String :=
  if get_full_name u = "" then u.username else get_full_name u

/-- CustomUser.is_provider (models.py). -/
def is_provider (u : Account) : Bool :=
  u.user_type == "provider"

/-- CustomUser.is_admin_user (models.py): role admin or the staff flag. -/
def is_admin_user (u : Account) : Bool :=
  u.user_type == "admin" || u.is_staff

/-- Abstract stand-in for the Django password hasher: a deterministic,
collision-free one-way encoding.  Only the contract the views rely on matters:
check_password accepts exactly the password whose hash is stored. -/
def mkHash (p : String) : String :=
  "pbkdf2_sha256:" ++ p

/-- django.contrib.auth check_password: the stored hash matches the candidate. -/
def check_password (p : String) (u : Account) : Bool :=
  u.passwordHash == mkHash p

/-- django.contrib.auth set_password: replace the stored hash. -/
def set_password (u : Account) (p : String) : Account :=
  { u with passwordHash := mkHash p }

/-- Serialize an optional text field: absent fields render as null. -/
def optVal : Option String → Val
  | some s => Val.s s
  | none => Val.null

/-- Media URL of a stored picture reference. -/
def mediaUrl (p : String) : String :=
  "/media/" ++ p

/-- Serialize the profile_picture field: its URL, or null when absent. -/
def pictureVal : Option String → Val
  | some p => Val.s (mediaUrl p)
  | none => Val.null

/-- An HTTP response: status code and a flat JSON body. -/
structure Response where
  status : Nat
  body : List (String × Val)
  deriving DecidableEq

/-- UserProviderSerializer (serializers.py): the exact Meta.fields tuple, in
declaration order. -/
def userProviderSerialize (u : Account) : List (String × Val) :=
  [ ("id", Val.n u.id)
  , ("username", Val.s u.username)
  , ("email", Val.s u.email)
  , ("full_name", Val.s (full_name_of u))
  , ("phone_number", optVal u.phone_number)
  , ("profile_picture", pictureVal u.profile_picture)
  , ("bio", optVal (bioOf u))
  , ("website", optVal u.website)
  , ("business_name", optVal u.business_name)
  , ("is_verified", Val.b u.is_verified)
  , ("is_licensed", Val.b u.is_licensed) ]

/-- UserViewSet.provider_info (views.py): requires a user_id query parameter,
looks up an account by id AND role provider in one query, answers 404 with a
single generic body when that lookup finds nothing. -/
def provider_info (store : List Account) (user_id : Option Nat) : Response :=
  match user_id with
  | none => { status := 400, body := [("error", Val.s "user_id parameter required")] }
  | some uid =>
    match store.find? (fun u => u.id == uid && u.user_type == "provider") with
    | some u => { status := 200, body := userProviderSerialize u }
    | none => { status := 404, body := [("error", Val.s "Provider not found")] }

/-- UserViewSet.destroy (views.py): 404 when the target id does not exist,
403 unless the principal is the target or has the staff flag, otherwise the
record is removed. -/
def destroy (store : List Account) (principal : Account) (targetId : Nat) :
    Response × List Account :=
  match store.find? (fun u => u.id == targetId) with
  | none => ({ status := 404, body := [("detail", Val.s "Not found.")] }, store)
  | some target =>
    if principal.id != target.id && !principal.is_staff then
      ({ status := 403, body := [("error", Val.s "You can only delete your own account")] },
       store)
    else
      ({ status := 204, body := [("message", Val.s "Account deleted successfully")] },
       store.filter (fun u => u.id != targetId))

/-- django.contrib.auth authenticate via ModelBackend: look the account up by
username, then require a password match and an active account. -/
def authenticate (store : List Account) (username password : String) : Option Account :=
  match store.find? (fun u => u.username == username) with
  | none => none
  | some u => if check_password password u && u.is_active then some u else none

/-- A login request body; either field may be absent. -/
structure LoginRequest where
  username : Option String
  password : Option String
  deriving DecidableEq

/-- Opaque modelling of the JWT pair issued by rest_framework_simplejwt. -/
def tokenVal (kind : String) (u : Account) : Val :=
  Val.s (kind ++ u.username)

/-- UserViewSet.login (views.py) with UserLoginSerializer: a missing or blank
username or password fails serializer validation, and the view maps EVERY
serializer failure (missing field, blank field, or failed authenticate) to the
same generic 401 body, ignoring serializer.errors. -/
def login (store : List Account) (req : LoginRequest) : Response :=
  match req.username, req.password with
  | some un, some pw =>
    if un == "" || pw == "" then
      { status := 401, body := [("error", Val.s "Invalid credentials")] }
    else
      match authenticate store un pw with
      | some u =>
        { status := 200
        , body := [ ("access", tokenVal "access:" u)
                  , ("refresh", tokenVal "refresh:" u)
                  , ("message", Val.s "Login successful!") ] }
      | none => { status := 401, body := [("error", Val.s "Invalid credentials")] }
  | _, _ => { status := 401, body := [("error", Val.s "Invalid credentials")] }

/-- A password change request body (all three fields are required CharFields;
the request domain here always carries them). -/
structure PasswordChangeRequest where
  old_password : String
  new_password : String
  new_password2 : String
  deriving DecidableEq

/-- UserViewSet.password_change with UserPasswordChangeSerializer: the
field-level validate_old_password check runs during to_internal_value, before
the object-level new-password match check, so a wrong old password preempts the
mismatch error.  On success the principal's stored hash is replaced. -/
def password_change (store : List Account) (principal : Account)
    (req : PasswordChangeRequest) : Response × List Account :=
  if check_password req.old_password principal = false then
    ({ status := 400, body := [("old_password", Val.s "Old password is incorrect")] }, store)
  else if req.new_password != req.new_password2 then
    ({ status := 400, body := [("new_password", Val.s "New passwords do not match")] }, store)
  else
    ({ status := 200, body := [("message", Val.s "Password changed successfully!")] },
     store.map (fun u => if u.id == principal.id then set_password u req.new_password else u))

/-- A profile update request body.  The first seventeen fields are the exact
Meta.fields tuple of UserUpdateSerializer; a present value is applied, an
absent one leaves the field untouched (partial=True).  The trailing fields
(username, email, user_type and the four verification flags) model keys a
caller may also put in the request body: they are not in Meta.fields, so the
serializer drops them. -/
structure UpdateRequest where
  first_name : Option String := none
  last_name : Option String := none
  phone_number : Option (Option String) := none
  gender : Option (Option String) := none
  date_of_birth : Option (Option String) := none
  nationality : Option (Option String) := none
  address : Option (Option String) := none
  city : Option (Option String) := none
  state : Option (Option String) := none
  postal_code : Option (Option String) := none
  country : Option (Option String) := none
  profile_picture : Option (Option String) := none
  bio : Option (Option String) := none
  website : Option (Option String) := none
  language_preference : Option String := none
  receive_notifications : Option Bool := none
  receive_sms : Option Bool := none
  username : Option String := none
  email : Option String := none
  user_type : Option String := none
  is_verified : Option Bool := none
  is_phone_verified : Option Bool := none
  is_identity_verified : Option Bool := none
  is_licensed : Option Bool := none
  deriving DecidableEq

/-- Accessor for the biography field of an update request. -/
def reqBioOf (r : UpdateRequest) : Option (Option String) :=
  UpdateRequest.bio r

/-- ModelSerializer.update semantics for UserUpdateSerializer with partial=True:
setattr each validated field, leave everything else alone.  Keys outside
Meta.fields never reach validated_data, so username, email, user_type and the
verification flags of the request are discarded. -/
def applyUpdate (u : Account) (r : UpdateRequest) : Account :=
  { u with
    first_name := r.first_name.getD u.first_name
    last_name := r.last_name.getD u.last_name
    phone_number := r.phone_number.getD u.phone_number
    gender := r.gender.getD u.gender
    date_of_birth := r.date_of_birth.getD u.date_of_birth
    nationality := r.nationality.getD u.nationality
    address := r.address.getD u.address
    city := r.city.getD u.city
    state := r.state.getD u.state
    postal_code := r.postal_code.getD u.postal_code
    country := r.country.getD u.country
    profile_picture := r.profile_picture.getD u.profile_picture
    bio := (reqBioOf r).getD (bioOf u)
    website := r.website.getD u.website
    language_preference := r.language_preference.getD u.language_preference
    receive_notifications := r.receive_notifications.getD u.receive_notifications
    receive_sms := r.receive_sms.getD u.receive_sms }

/-- UserViewSet.update_profile (views.py): apply the partial merge to the
authenticated principal and persist it.  Per-field choice and URL format
validation is not modelled; request values are assumed well-formed members of
their field types. -/
def update_profile (store : List Account) (principal : Account) (r : UpdateRequest) :
    Response × List Account :=
  ({ status := 200, body := [("message", Val.s "Profile updated successfully!")] },
   store.map (fun u => if u.id == principal.id then applyUpdate u r else u))

/-- UserViewSet.upload_profile_picture with UserProfilePictureSerializer
(partial=True, sole field profile_picture): an absent file leaves the stored
reference unchanged, and the response reads the picture back after saving,
rendering null when none is stored. -/
def upload_profile_picture (store : List Account) (principal : Account)
    (file : Option String) : Response × List Account :=
  let updated :=
    { principal with
      profile_picture := match file with
                         | some f => some f
                         | none => principal.profile_picture }
  ({ status := 200
   , body := [ ("profile_picture", pictureVal updated.profile_picture)
             , ("message", Val.s "Profile picture uploaded!") ] },
   store.map (fun u => if u.id == principal.id then updated else u))

/-- A registration request body.  username, email, password and password2 are
the required fields; the request domain here always carries them. -/
structure RegisterRequest where
  username : String
  email : String
  first_name : String := ""
  last_name : String := ""
  password : String
  password2 : String
  user_type : Option String := none
  phone_number : Option (Option String) := none
  deriving DecidableEq

/-- Fresh primary key for a new record. -/
def nextId (store : List Account) : Nat :=
  (store.map (fun u => u.id)).foldr max 0 + 1

/-- Is the username already taken (the model's unique=True constraint on
username, surfaced by the serializer's UniqueValidator)? -/
def usernameTaken (store : List Account) (un : String) : Bool :=
  store.any (fun u => u.username == un)

/-- UserCreateSerializer.create via CustomUser.objects.create_user: hash the
password, fill the submitted fields, let every other model field take its
declared default (user_type "tourist", all verification flags false). -/
def create_user (store : List Account) (r : RegisterRequest) : Account :=
  { id := nextId store
  , username := r.username
  , email := r.email
  , passwordHash := mkHash r.password
  , first_name := r.first_name
  , last_name := r.last_name
  , user_type := r.user_type.getD "tourist"
  , phone_number := r.phone_number.getD none }

/-- UserViewSet.register with UserCreateSerializer: field-level validators
(the username UniqueValidator) run in to_internal_value, BEFORE the
object-level password match check in validate, so a username conflict preempts
the password-mismatch error.  On success the new record is persisted and a
token pair issued. -/
def register (store : List Account) (r : RegisterRequest) : Response × List Account :=
  if usernameTaken store r.username then
    ({ status := 400
     , body := [("username", Val.s "A user with that username already exists.")] }, store)
  else if r.password != r.password2 then
    ({ status := 400, body := [("password", Val.s "Passwords do not match")] }, store)
  else
    let u := create_user store r
    ({ status := 201
     , body := [ ("id", Val.n u.id)
               , ("access", tokenVal "access:" u)
               , ("refresh", tokenVal "refresh:" u)
               , ("message", Val.s "Registration successful!") ] },
     store ++ [u])

/-- Concrete provider account mirroring the fixture of accounts/tests.py. -/
def egyProvider : Account :=
  { id := 7
  , username := "hotelprovider"
  , email := "hotel@example.com"
  , passwordHash := mkHash "ProviderPass123!"
  , first_name := "Cairo"
  , last_name := "Hotels"
  , user_type := "provider"
  , phone_number := some "+201001234567"
  , business_name := some "Cairo Luxury Hotels"
  , is_verified := true
  , is_licensed := true }

/-- Concrete principal with role admin but without the staff flag. -/
def roleAdmin : Account :=
  { id := 1, username := "roleadmin", user_type := "admin", is_staff := false }

/-- Concrete tourist account. -/
def victimUser : Account :=
  { id := 2, username := "victim" }

/-- Concrete account with a known password. -/
def aliAccount : Account :=
  { id := 1, username := "ali", email := "ali@x.com", passwordHash := mkHash "Pw1!" }

/-- Concrete account with no stored profile picture. -/
def picUser : Account :=
  { id := 5, username := "picuser" }

/-- The hash encoding is collision-free. -/
theorem mkHash_inj {a b : String} (h : mkHash a = mkHash b) : a = b := by
  unfold mkHash at h
  have hd := congrArg String.data h
  simp only [String.data_append] at hd
  exact String.ext (List.append_cancel_left hd)

/-- C1: the code contradicts its own serializer documentation: for a provider
account, the provider_info response body contains the email and the phone
number, which the restricted field subset excludes. -/
theorem C1_provider_info_leaks_email_and_phone :
    (provider_info [egyProvider] (some 7)).status = 200 ∧
    ("email", Val.s "hotel@example.com") ∈ (provider_info [egyProvider] (some 7)).body ∧
    ("phone_number", Val.s "+201001234567") ∈ (provider_info [egyProvider] (some 7)).body := by
  decide

/-- C2 counterexample: a principal whose role is admin but whose staff flag is
false cannot delete another existing account: the code answers 403 and the
store is unchanged, while the claim says a role-admin principal succeeds. -/
theorem C2_role_admin_denied :
    is_admin_user roleAdmin = true ∧
    roleAdmin.is_staff = false ∧
    roleAdmin.id ≠ victimUser.id ∧
    (destroy [roleAdmin, victimUser] roleAdmin 2).1.status = 403 ∧
    (destroy [roleAdmin, victimUser] roleAdmin 2).2 = [roleAdmin, victimUser] := by
  decide

/-- C2 (amended): for an existing target, deletion succeeds (the record is
removed) iff the principal is the target or carries the staff flag; otherwise
it fails with 403 and the store is unchanged.  Role admin alone grants
nothing here: the view checks is_staff only. -/
theorem C2_destroy_owner_or_staff (store : List Account) (p t : Account) (tid : Nat)
    (hfind : store.find? (fun u => u.id == tid) = some t) :
    if p.id = t.id ∨ p.is_staff = true then
      (destroy store p tid).1.status = 204 ∧
      (destroy store p tid).2 = store.filter (fun u => u.id != tid)
    else
      (destroy store p tid).1.status = 403 ∧ (destroy store p tid).2 = store := by
  by_cases h : p.id = t.id ∨ p.is_staff = true
  · rw [if_pos h]
    have hb : (p.id != t.id && !p.is_staff) = false := by
      rcases h with h | h
      · simp [h]
      · simp [h]
    simp [destroy, hfind, hb]
  · rw [if_neg h]
    push_neg at h
    have hb : (p.id != t.id && !p.is_staff) = true := by
      have h2 : p.is_staff = false := by
        cases hs : p.is_staff
        · rfl
        · exact absurd hs h.2
      simp [h.1, h2]
    simp [destroy, hfind, hb]

/-- C2 witness: the owner deletes the own account and the record is removed. -/
theorem C2_destroy_owner_or_staff_witness :
    if victimUser.id = victimUser.id ∨ victimUser.is_staff = true then
      (destroy [victimUser] victimUser 2).1.status = 204 ∧
      (destroy [victimUser] victimUser 2).2 = [victimUser].filter (fun u => u.id != 2)
    else
      (destroy [victimUser] victimUser 2).1.status = 403 ∧
      (destroy [victimUser] victimUser 2).2 = [victimUser] :=
  C2_destroy_owner_or_staff [victimUser] victimUser victimUser 2 (by decide)

/-- C3: when no stored account has the requested id together with role
provider — because no account has that id at all, or because the account with
that id has a non-provider role — provider_info answers one and the same
response: 404 with the single generic body. -/
theorem C3_provider_info_not_found (store : List Account) (uid : Nat)
    (h : ∀ u ∈ store, u.id = uid → u.user_type ≠ "provider") :
    provider_info store (some uid) =
      { status := 404, body := [("error", Val.s "Provider not found")] } := by
  have hf : store.find? (fun u => u.id == uid && u.user_type == "provider") = none := by
    rw [List.find?_eq_none]
    intro x hx
    simp only [Bool.and_eq_true, beq_iff_eq, not_and]
    intro h1 h2
    exact absurd h2 (h x hx h1)
  simp [provider_info, hf]

/-- C3 witness: a tourist-role account at the requested id yields the generic
404 response. -/
theorem C3_provider_info_not_found_witness :
    provider_info [victimUser] (some 2) =
      { status := 404, body := [("error", Val.s "Provider not found")] } :=
  C3_provider_info_not_found [victimUser] 2 (by decide)

/-- C4: whenever no stored account carries the submitted username with a
matching password — the username is unknown, or the password fails the hash
check — login answers one and the same response: the generic 401 body, so the
two failure causes are indistinguishable to the caller. -/
theorem C4_login_invalid_credentials (store : List Account) (un pw : String)
    (h : ∀ acc ∈ store, acc.username = un → check_password pw acc = false) :
    login store { username := some un, password := some pw } =
      { status := 401, body := [("error", Val.s "Invalid credentials")] } := by
  have hauth : authenticate store un pw = none := by
    unfold authenticate
    cases hf : store.find? (fun u => u.username == un) with
    | none => rfl
    | some u =>
      have hu : u.username = un := by
        have := List.find?_some hf
        simpa using this
      have hmem : u ∈ store := List.mem_of_find?_eq_some hf
      simp [h u hmem hu]
  by_cases he : (un == "" || pw == "") = true
  · simp [login, he]
  · simp [login, he, hauth]

/-- C4 witness: a wrong password for an existing username yields the generic
401 response. -/
theorem C4_login_invalid_credentials_witness :
    login [aliAccount] { username := some "ali", password := some "wrong" } =
      { status := 401, body := [("error", Val.s "Invalid credentials")] } :=
  C4_login_invalid_credentials [aliAccount] "ali" "wrong" (by decide)

/-- C5 counterexample: changing the password to the very password already in
use succeeds, and a subsequent authenticate with the old password still
succeeds, contradicting the claim that authenticate with the old password then
fails. -/
theorem C5_same_password_counterexample :
    check_password "Pw1!" aliAccount = true ∧
    (password_change [aliAccount] aliAccount
        { old_password := "Pw1!", new_password := "Pw1!", new_password2 := "Pw1!" }).1.status
      = 200 ∧
    (authenticate
        (password_change [aliAccount] aliAccount
          { old_password := "Pw1!", new_password := "Pw1!", new_password2 := "Pw1!" }).2
        "ali" "Pw1!").isSome = true := by
  decide

/-- C5 (amended): password change fails with a 400 field-keyed body and leaves
the store unchanged when the old password does not match or the new passwords
differ; when the old password matches and the new passwords agree it succeeds
and replaces the stored hash, so a subsequent authenticate with the new
password succeeds, and one with the old password fails provided the old and
new passwords differ. -/
theorem C5_password_change_correct (store : List Account) (p : Account)
    (old new new2 : String)
    (hfind : store.find? (fun u => u.username == p.username) = some p)
    (hactive : p.is_active = true) :
    ((check_password old p = false ∨ new ≠ new2) →
      (password_change store p { old_password := old, new_password := new, new_password2 := new2 }).1.status = 400 ∧
      (password_change store p { old_password := old, new_password := new, new_password2 := new2 }).2 = store) ∧
    (check_password old p = true → new = new2 →
      (password_change store p { old_password := old, new_password := new, new_password2 := new2 }).1.status = 200 ∧
      (authenticate (password_change store p { old_password := old, new_password := new, new_password2 := new2 }).2
          p.username new).isSome = true ∧
      (old ≠ new →
        authenticate (password_change store p { old_password := old, new_password := new, new_password2 := new2 }).2
            p.username old = none)) := by
  constructor
  · intro h
    by_cases hold : check_password old p = false
    · simp [password_change, hold]
    · have hne : new ≠ new2 := by
        rcases h with h | h
        · exact absurd h hold
        · exact h
      have hb : (new != new2) = true := by simp [hne]
      simp [password_change, hold, hb]
  · intro hold heq
    have hold' : (check_password old p = false) = False := by simp [hold]
    have hb : (new != new2) = false := by simp [heq]
    have hstore2 :
        (password_change store p { old_password := old, new_password := new, new_password2 := new2 }).2
          = store.map (fun u => if u.id == p.id then set_password u new else u) := by
      simp [password_change, hold, hb]
    have hfind2 :
        (store.map (fun u => if u.id == p.id then set_password u new else u)).find?
            (fun u => u.username == p.username)
          = some (set_password p new) := by
      rw [List.find?_map]
      have hcomp :
          ((fun u : Account => u.username == p.username) ∘
            (fun u => if u.id == p.id then set_password u new else u))
            = (fun u : Account => u.username == p.username) := by
        funext u
        by_cases hid : (u.id == p.id) = true
        · simp [Function.comp, hid, set_password]
        · simp [Function.comp, hid]
      rw [hcomp, hfind]
      simp [Option.map]
    refine ⟨by simp [password_change, hold, hb], ?_, ?_⟩
    · rw [hstore2]
      unfold authenticate
      rw [hfind2]
      have hchk : check_password new (set_password p new) = true := by
        simp [check_password, set_password]
      have hact : (set_password p new).is_active = true := by
        simpa [set_password] using hactive
      simp [hchk, hact]
    · intro hne
      rw [hstore2]
      unfold authenticate
      rw [hfind2]
      have hchk : check_password old (set_password p new) = false := by
        simp only [check_password, set_password]
        rw [beq_eq_false_iff_ne]
        intro hcontra
        exact hne (mkHash_inj hcontra.symm)
      simp [hchk]

/-- C5 witness: a correct old password with an agreeing, different new pair
succeeds; the new password then authenticates and the old one no longer
does. -/
theorem C5_password_change_correct_witness :
    ((check_password "Pw1!" aliAccount = false ∨ "New2!" ≠ "New2!") →
      (password_change [aliAccount] aliAccount { old_password := "Pw1!", new_password := "New2!", new_password2 := "New2!" }).1.status = 400 ∧
      (password_change [aliAccount] aliAccount { old_password := "Pw1!", new_password := "New2!", new_password2 := "New2!" }).2 = [aliAccount]) ∧
    (check_password "Pw1!" aliAccount = true → "New2!" = "New2!" →
      (password_change [aliAccount] aliAccount { old_password := "Pw1!", new_password := "New2!", new_password2 := "New2!" }).1.status = 200 ∧
      (authenticate (password_change [aliAccount] aliAccount { old_password := "Pw1!", new_password := "New2!", new_password2 := "New2!" }).2
          aliAccount.username "New2!").isSome = true ∧
      ("Pw1!" ≠ "New2!" →
        authenticate (password_change [aliAccount] aliAccount { old_password := "Pw1!", new_password := "New2!", new_password2 := "New2!" }).2
            aliAccount.username "Pw1!" = none)) :=
  C5_password_change_correct [aliAccount] aliAccount "Pw1!" "New2!" "New2!" (by decide) (by decide)

/-- C6: the profile update is a partial merge.  Every field named in the
request takes the requested value, every mutable field absent from the request
keeps its stored value, and username, email, user_type and all four
verification flags of the account are unchanged no matter what the request
carries for them. -/
theorem C6_update_partial_merge (u : Account) (r : UpdateRequest) :
    (applyUpdate u r).username = u.username ∧
    (applyUpdate u r).email = u.email ∧
    (applyUpdate u r).user_type = u.user_type ∧
    (applyUpdate u r).is_verified = u.is_verified ∧
    (applyUpdate u r).is_phone_verified = u.is_phone_verified ∧
    (applyUpdate u r).is_identity_verified = u.is_identity_verified ∧
    (applyUpdate u r).is_licensed = u.is_licensed ∧
    (applyUpdate u r).passwordHash = u.passwordHash ∧
    (applyUpdate u r).first_name = r.first_name.getD u.first_name ∧
    (applyUpdate u r).last_name = r.last_name.getD u.last_name ∧
    (applyUpdate u r).phone_number = r.phone_number.getD u.phone_number ∧
    (applyUpdate u r).gender = r.gender.getD u.gender ∧
    (applyUpdate u r).date_of_birth = r.date_of_birth.getD u.date_of_birth ∧
    (applyUpdate u r).nationality = r.nationality.getD u.nationality ∧
    (applyUpdate u r).address = r.address.getD u.address ∧
    (applyUpdate u r).city = r.city.getD u.city ∧
    (applyUpdate u r).state = r.state.getD u.state ∧
    (applyUpdate u r).postal_code = r.postal_code.getD u.postal_code ∧
    (applyUpdate u r).country = r.country.getD u.country ∧
    (applyUpdate u r).profile_picture = r.profile_picture.getD u.profile_picture ∧
    bioOf (applyUpdate u r) = (reqBioOf r).getD (bioOf u) ∧
    (applyUpdate u r).website = r.website.getD u.website ∧
    (applyUpdate u r).language_preference = r.language_preference.getD u.language_preference ∧
    (applyUpdate u r).receive_notifications = r.receive_notifications.getD u.receive_notifications ∧
    (applyUpdate u r).receive_sms = r.receive_sms.getD u.receive_sms :=
  ⟨rfl, rfl, rfl, rfl, rfl, rfl, rfl, rfl, rfl, rfl, rfl, rfl, rfl,
   rfl, rfl, rfl, rfl, rfl, rfl, rfl, rfl, rfl, rfl, rfl, rfl⟩

/-- C7 counterexample: a registration whose passwords mismatch AND whose
username is already taken answers 400 keyed to username only: no
password-keyed error appears, against the claim that every mismatched input
fails with an error keyed to the password field. -/
theorem C7_username_conflict_preempts_password_error :
    "SecurePass1!" ≠ "Different2!" ∧
    (register [aliAccount]
        { username := "ali", email := "other@x.com"
        , password := "SecurePass1!", password2 := "Different2!" }).1.status = 400 ∧
    ((register [aliAccount]
        { username := "ali", email := "other@x.com"
        , password := "SecurePass1!", password2 := "Different2!" }).1.body.map Prod.fst)
      = ["username"] ∧
    (register [aliAccount]
        { username := "ali", email := "other@x.com"
        , password := "SecurePass1!", password2 := "Different2!" }).2 = [aliAccount] := by
  decide

/-- C7 (amended): whenever the password and its confirmation differ, register
answers 400 and creates no account; and when additionally no field-level error
preempts it — the username is not already taken — the error body is keyed to
the password field. -/
theorem C7_register_password_mismatch (store : List Account) (r : RegisterRequest)
    (hmm : r.password ≠ r.password2) :
    (register store r).1.status = 400 ∧
    (register store r).2 = store ∧
    (usernameTaken store r.username = false →
      (register store r).1.body = [("password", Val.s "Passwords do not match")]) := by
  have hb : (r.password != r.password2) = true := by simp [hmm]
  by_cases ht : usernameTaken store r.username
  · simp [register, ht]
  · simp [register, ht, hb]

/-- C7 witness: a mismatched pair on a fresh store is rejected with the
password-keyed error and the store stays empty. -/
theorem C7_register_password_mismatch_witness :
    (register [] { username := "ali", email := "a@x.com", password := "a", password2 := "b" }).1.status = 400 ∧
    (register [] { username := "ali", email := "a@x.com", password := "a", password2 := "b" }).2 = [] ∧
    (usernameTaken [] "ali" = false →
      (register [] { username := "ali", email := "a@x.com", password := "a", password2 := "b" }).1.body
        = [("password", Val.s "Passwords do not match")]) :=
  C7_register_password_mismatch []
    { username := "ali", email := "a@x.com", password := "a", password2 := "b" } (by decide)

/-- C8: every account a successful registration persists has all four
verification flags false, and when the input carries no user_type the role is
tourist. -/
theorem C8_register_defaults (store : List Account) (r : RegisterRequest)
    (h : (register store r).1.status = 201) :
    (register store r).2 = store ++ [create_user store r] ∧
    (create_user store r).is_verified = false ∧
    (create_user store r).is_phone_verified = false ∧
    (create_user store r).is_identity_verified = false ∧
    (create_user store r).is_licensed = false ∧
    (r.user_type = none → (create_user store r).user_type = "tourist") := by
  by_cases ht : usernameTaken store r.username
  · simp [register, ht] at h
  · by_cases hp : (r.password != r.password2) = true
    · simp [register, ht, hp] at h
    · refine ⟨?_, rfl, rfl, rfl, rfl, ?_⟩
      · simp [register, ht, hp]
      · intro hu
        simp [create_user, hu]

/-- C8 witness: the example registration of the spec creates a tourist account
with all verification flags false. -/
theorem C8_register_defaults_witness :
    (register [] { username := "ali", email := "ali@x.com", password := "Pw1!", password2 := "Pw1!" }).2
      = [] ++ [create_user [] { username := "ali", email := "ali@x.com", password := "Pw1!", password2 := "Pw1!" }] ∧
    (create_user [] { username := "ali", email := "ali@x.com", password := "Pw1!", password2 := "Pw1!" }).is_verified = false ∧
    (create_user [] { username := "ali", email := "ali@x.com", password := "Pw1!", password2 := "Pw1!" }).is_phone_verified = false ∧
    (create_user [] { username := "ali", email := "ali@x.com", password := "Pw1!", password2 := "Pw1!" }).is_identity_verified = false ∧
    (create_user [] { username := "ali", email := "ali@x.com", password := "Pw1!", password2 := "Pw1!" }).is_licensed = false ∧
    (({ username := "ali", email := "ali@x.com", password := "Pw1!", password2 := "Pw1!" } : RegisterRequest).user_type = none →
      (create_user [] { username := "ali", email := "ali@x.com", password := "Pw1!", password2 := "Pw1!" }).user_type = "tourist") :=
  C8_register_defaults []
    { username := "ali", email := "ali@x.com", password := "Pw1!", password2 := "Pw1!" } (by decide)

/-- C9: a login request whose username or password is absent or the empty
string gets exactly the generic 401 body used for wrong credentials; malformed
login input is never surfaced as a 400 field-keyed validation error. -/
theorem C9_login_malformed_generic (store : List Account) (req : LoginRequest)
    (h : req.username = none ∨ req.password = none ∨
         req.username = some "" ∨ req.password = some "") :
    login store req = { status := 401, body := [("error", Val.s "Invalid credentials")] } := by
  rcases req with ⟨un, pw⟩
  rcases h with h | h | h | h
  · cases h
    cases pw <;> rfl
  · cases h
    cases un <;> rfl
  · cases h
    cases pw with
    | none => rfl
    | some p => simp [login]
  · cases h
    cases un with
    | none => rfl
    | some u => simp [login]

/-- C9 witness: the empty request body gets the generic 401 response. -/
theorem C9_login_malformed_generic_witness :
    login [] { username := none, password := none } =
      { status := 401, body := [("error", Val.s "Invalid credentials")] } :=
  C9_login_malformed_generic [] { username := none, password := none } (Or.inl rfl)

/-- C10: an upload request carrying no file succeeds with 200, leaves the
store (so the stored picture reference) exactly as it was, and when the
principal has no stored picture the response reports null for it.  The store
hypothesis says the principal is the record the store holds under its id. -/
theorem C10_upload_no_file (store : List Account) (p : Account)
    (hstore : ∀ u ∈ store, u.id = p.id → u = p) :
    (upload_profile_picture store p none).1.status = 200 ∧
    (upload_profile_picture store p none).2 = store ∧
    (p.profile_picture = none →
      ("profile_picture", Val.null) ∈ (upload_profile_picture store p none).1.body) := by
  refine ⟨rfl, ?_, ?_⟩
  · show store.map (fun u => if u.id == p.id then
        ({ p with profile_picture := p.profile_picture }) else u) = store
    have hmap : store.map (fun u => if u.id == p.id then
        ({ p with profile_picture := p.profile_picture }) else u) = store.map id := by
      apply List.map_congr_left
      intro u hu
      by_cases hid : (u.id == p.id) = true
      · rw [if_pos hid]
        have : u = p := hstore u hu (by simpa using hid)
        simp [this]
      · rw [if_neg hid]
        rfl
    rw [hmap, List.map_id]
  · intro hp
    simp [upload_profile_picture, hp, pictureVal]

/-- C10 witness: a no-file upload for an account with no stored picture:
200, unchanged store, null picture in the body. -/
theorem C10_upload_no_file_witness :
    (upload_profile_picture [picUser] picUser none).1.status = 200 ∧
    (upload_profile_picture [picUser] picUser none).2 = [picUser] ∧
    (picUser.profile_picture = none →
      ("profile_picture", Val.null) ∈ (upload_profile_picture [picUser] picUser none).1.body) :=
  C10_upload_no_file [picUser] picUser (by decide)
